import Mathlib

/-!
Verification of the F1 lap-time physics engine (`F1simulation/`).

Doubles are modelled as real numbers. The definitions mirror the current
(RK4) integrator in `src/simulationstep.cpp`, the lap orchestrator in
`src/laptimesim.cpp`, and the sweep harnesses in `main.cpp`.
-/

namespace F1sim

noncomputable section

/-- Physical constant `GRAVITY` from `laptimesim.h`. -/
def GRAVITY : ℝ := 9.81

/-- Physical constant `AIR_DENSITY` from `laptimesim.h`. -/
def AIR_DENSITY : ℝ := 1.225

/-- Modelled from the spec: the thermal constants `TIRE_MASS`,
`TIRE_SPECIFIC_HEAT`, `HEAT_TRANSFER_COEFF` and `AMBIENT_TEMP` are used by
`simulationstep.cpp` but declared in a header revision that is not under
`src/`; they are kept as parameters of the model. -/
structure ThermalConsts where
  tireMass : ℝ
  tireSpecificHeat : ℝ
  heatTransferCoeff : ℝ
  ambientTemp : ℝ

/-- Vehicle state of the current integrator: the fields of the old
`VehicleState` in `laptimesim.h` plus `tireTemp`, `frontLoad`, `rearLoad`
which `simulationstep.cpp` reads and writes. -/
structure VehicleState where
  position : ℝ
  velocity : ℝ
  acceleration : ℝ
  time : ℝ
  throttle : ℝ
  brake : ℝ
  tireTemp : ℝ
  frontLoad : ℝ
  rearLoad : ℝ

/-- Vehicle parameters: the fields of `VehicleParams` in `laptimesim.h`
plus `weightDistFront`, `weightDistRear`, `centerGravity`, `wheelBase`
which `simulationstep.cpp` reads. -/
structure VehicleParams where
  mass : ℝ
  dragCoeff : ℝ
  frontalArea : ℝ
  downforceCoeff : ℝ
  maxPower : ℝ
  maxBrakeTorque : ℝ
  tireGripCoeff : ℝ
  wheelRadius : ℝ
  weightDistFront : ℝ
  weightDistRear : ℝ
  centerGravity : ℝ
  wheelBase : ℝ

/-- Structure `TrackSegment` from `laptimesim.h`. -/
structure TrackSegment where
  length : ℝ
  radius : ℝ
  inclination : ℝ
  type : String

/-- Embedding of `LapTimeSimulator::calculateDrag` (`simulationstep.cpp`). -/
def calculateDrag (P : VehicleParams) (velocity : ℝ) : ℝ :=
  0.5 * AIR_DENSITY * P.frontalArea * P.dragCoeff * velocity * velocity

/-- Embedding of `LapTimeSimulator::calculateDownforce` (`simulationstep.cpp`). -/
def calculateDownforce (P : VehicleParams) (velocity : ℝ) : ℝ :=
  0.5 * AIR_DENSITY * P.frontalArea * P.downforceCoeff * velocity * velocity

/-- Embedding of `LapTimeSimulator::calculateMaxCornerSpeed` (`simulationstep.cpp`,
two-argument version). -/
def calculateMaxCornerSpeed (P : VehicleParams) (radius grip_multiplier : ℝ) : ℝ :=
  if radius = 0 then 1000.0
  else Real.sqrt (P.tireGripCoeff * grip_multiplier * GRAVITY * radius)

/-- Embedding of `LapTimeSimulator::calculateTractionForce` (`simulationstep.cpp`,
three-argument version). -/
def calculateTractionForce (P : VehicleParams) (velocity throttle grip_multiplier : ℝ) : ℝ :=
  let v := if velocity < 0.1 then 0.1 else velocity
  min (P.maxPower / v * throttle) (P.tireGripCoeff * grip_multiplier * P.mass * GRAVITY)

/-- Embedding of `LapTimeSimulator::calculateGripMultiplier` (`simulationstep.cpp`). -/
def calculateGripMultiplier (P : VehicleParams) (state : VehicleState) : ℝ :=
  let static_load := P.mass * GRAVITY
  let grip_multiplier := Real.sqrt ((state.frontLoad + state.rearLoad) / static_load)
  if state.tireTemp < 80.0 then grip_multiplier * (0.7 + 0.3 * (state.tireTemp / 80.0))
  else if state.tireTemp > 120.0 then
    grip_multiplier * (1.0 - 0.5 * ((state.tireTemp - 120.0) / 80.0))
  else grip_multiplier

/-- Embedding of `LapTimeSimulator::calculateBrakeForce` (`simulationstep.cpp`). -/
def calculateBrakeForce (P : VehicleParams) (brake : ℝ) : ℝ :=
  P.maxBrakeTorque * brake / P.wheelRadius

/-- Embedding of `LapTimeSimulator::calculateDerivartives` (`simulationstep.cpp`).
The C++ takes `state` by reference and writes the selected throttle/brake
into it; the model returns the acceleration together with the mutated
state. -/
def calculateDerivartives (P : VehicleParams) (state : VehicleState)
    (segment : TrackSegment) : ℝ × VehicleState :=
  let grip_multiplier := calculateGripMultiplier P state
  let targetSpeed := calculateMaxCornerSpeed P segment.radius grip_multiplier
  let state' :=
    if state.velocity < targetSpeed * 0.95 then
      { state with throttle := 1.0, brake := 0.0 }
    else if state.velocity > targetSpeed * 1.05 then
      { state with throttle := 0.0, brake := 0.8 }
    else
      { state with throttle := 0.3, brake := 0.0 }
  let dragForce := calculateDrag P state'.velocity
  let tractionForce := calculateTractionForce P state'.velocity state'.throttle grip_multiplier
  let brakeForce := calculateBrakeForce P state'.brake
  let gravitationalForce := P.mass * GRAVITY * Real.sin (segment.inclination * Real.pi / 180.0)
  let netForce := tractionForce - dragForce - brakeForce - gravitationalForce
  (netForce / P.mass, state')

/-- Embedding of `LapTimeSimulator::calculateTempDerivartives` (`simulationstep.cpp`). -/
def calculateTempDerivartives (P : VehicleParams) (C : ThermalConsts)
    (state : VehicleState) : ℝ :=
  let grip_multiplier := calculateGripMultiplier P state
  let tractionForce := calculateTractionForce P state.velocity state.throttle grip_multiplier
  tractionForce * state.velocity * 4.0 / (C.tireMass * C.tireSpecificHeat) -
    C.heatTransferCoeff * (state.tireTemp - C.ambientTemp) / C.tireMass

/-- Embedding of `LapTimeSimulator::calculateLoad` (`simulationstep.cpp`). -/
def calculateLoad (P : VehicleParams) (state : VehicleState) : VehicleState :=
  let downforce := calculateDownforce P state.velocity
  let totalLoad := P.mass * GRAVITY + downforce
  let loadTransfer := state.acceleration * P.mass * P.centerGravity / P.wheelBase
  { state with
    frontLoad := totalLoad * P.weightDistFront + loadTransfer
    rearLoad := totalLoad * P.weightDistRear - loadTransfer }

/-- Embedding of `LapTimeSimulator::updateNextState` (`simulationstep.cpp`).  Only the
`acceleration` and `tireTemp` fields of `state` are read; the velocity is
clamped to `[0, 100]` after the loads are computed. -/
def updateNextState (P : VehicleParams) (state prestate : VehicleState) (dt : ℝ) :
    VehicleState :=
  let vel := prestate.velocity + state.acceleration * dt
  let st1 := { state with
    velocity := vel
    position := prestate.position + vel * dt
    time := prestate.time + dt
    throttle := prestate.throttle
    brake := prestate.brake }
  let st2 := calculateLoad P st1
  let v1 := if st2.velocity < 0 then (0 : ℝ) else st2.velocity
  let v2 := if v1 > 100 then (100 : ℝ) else v1
  { st2 with velocity := v2 }

/-- The four Runge-Kutta stage derivatives of `LapTimeSimulator::simulateStep`
(`simulationstep.cpp`): `cur` is `current` after `calculateDerivartives`
wrote the selected throttle/brake into it; `a0..a3` are `acceleration[0..3]`
and `t0..t3` are `tempDeriv[0..3]`. -/
structure RKStages where
  cur : VehicleState
  a0 : ℝ
  a1 : ℝ
  a2 : ℝ
  a3 : ℝ
  t0 : ℝ
  t1 : ℝ
  t2 : ℝ
  t3 : ℝ

/-- The stage loop of `LapTimeSimulator::simulateStep` (`simulationstep.cpp`),
unrolled: iterations `i = 0, 1` use `dt_t = dt/2`, iteration `i = 2` uses
`dt_t = dt`. -/
def rkStages (P : VehicleParams) (C : ThermalConsts) (current : VehicleState)
    (segment : TrackSegment) (dt : ℝ) : RKStages :=
  let r0 := calculateDerivartives P current segment
  let a0 := r0.1
  let cur := r0.2
  let t0 := calculateTempDerivartives P C cur
  let s1 := updateNextState P
    { cur with acceleration := a0, tireTemp := cur.tireTemp + t0 * (dt / 2.0) } cur (dt / 2.0)
  let r1 := calculateDerivartives P s1 segment
  let a1 := r1.1
  let t1 := calculateTempDerivartives P C r1.2
  let s2 := updateNextState P
    { cur with acceleration := a1, tireTemp := cur.tireTemp + t1 * (dt / 2.0) } cur (dt / 2.0)
  let r2 := calculateDerivartives P s2 segment
  let a2 := r2.1
  let t2 := calculateTempDerivartives P C r2.2
  let s3 := updateNextState P
    { cur with acceleration := a2, tireTemp := cur.tireTemp + t2 * dt } cur dt
  let r3 := calculateDerivartives P s3 segment
  let a3 := r3.1
  let t3 := calculateTempDerivartives P C r3.2
  ⟨cur, a0, a1, a2, a3, t0, t1, t2, t3⟩

/-- Embedding of `LapTimeSimulator::simulateStep` (`simulationstep.cpp`): combine the four
stage derivatives and integrate one step of size `dt`.  Note that the
velocity combine is multiplied by `dt` inside `updateNextState` while the
temperature combine is added to `current.tireTemp` as written, without a
factor `dt`. -/
def simulateStep (P : VehicleParams) (C : ThermalConsts) (current : VehicleState)
    (segment : TrackSegment) (dt : ℝ) : VehicleState :=
  let r := rkStages P C current segment dt
  let acc := (r.a0 + r.a3) / 6.0 + (r.a1 + r.a2) / 3.0
  let temp := r.cur.tireTemp + (r.t0 + r.t3) / 6.0 + (r.t1 + r.t2) / 3.0
  updateNextState P { r.cur with acceleration := acc, tireTemp := temp } r.cur dt

/-- Embedding of `LapTimeSimulator::addTrackSegment` (`laptimesim.cpp`, lines 19-26):
builds a segment from the four arguments and appends it to the track,
unconditionally. -/
def addTrackSegment (track : List TrackSegment) (length radius inclination : ℝ)
    (type : String) : List TrackSegment :=
  track ++ [⟨length, radius, inclination, type⟩]

/-- The initial run state of `LapTimeSimulator::runSimulation`
(`laptimesim.cpp`, lines 114-120): position, velocity, acceleration, time,
throttle and brake are zeroed.  Modelled from the spec: the current run
version also initialises `tireTemp` to the configured 60 °C baseline and
zeroes the loads; that initialisation is not under `src/`. -/
def initState : VehicleState :=
  { position := 0, velocity := 0, acceleration := 0, time := 0,
    throttle := 0, brake := 0, tireTemp := 60, frontLoad := 0, rearLoad := 0 }

/-- The per-segment `while` loop of `LapTimeSimulator::runSimulation`
(`laptimesim.cpp`, lines 137-144): while `position < segmentEnd`, append the
current state to the telemetry and integrate one step; the inner `break`
fires as soon as the stepped position reaches `segmentEnd`.  The C++ loop
has no fuel; `fuel` is a modelling bound on the number of iterations. -/
def runSegment (P : VehicleParams) (C : ThermalConsts) (segment : TrackSegment)
    (dt segmentEnd : ℝ) :
    Nat → VehicleState → List VehicleState → VehicleState × List VehicleState
  | 0, state, tel => (state, tel)
  | Nat.succ fuel, state, tel =>
    if state.position < segmentEnd then
      let state' := simulateStep P C state segment dt
      if state'.position ≥ segmentEnd then (state', tel ++ [state])
      else runSegment P C segment dt segmentEnd fuel state' (tel ++ [state])
    else (state, tel)

/-- Embedding of `LapTimeSimulator::runSimulation` (`laptimesim.cpp`, lines 110-156):
clear the telemetry, start from the fresh initial state and drive every
track segment in order; `segmentEnd` is the position at segment entry plus
the segment length.  Returns the final state and the recorded telemetry. -/
def runSimulation (P : VehicleParams) (C : ThermalConsts)
    (track : List TrackSegment) (dt : ℝ) (fuel : Nat) :
    VehicleState × List VehicleState :=
  track.foldl
    (fun acc segment =>
      runSegment P C segment dt (acc.1.position + segment.length) fuel acc.1 acc.2)
    (initState, [])

/-- Embedding of `LapTimeSimulator::getLapTime` (`laptimesim.cpp`, lines 186-188):
`runSimulation` ends with `totalTime = state.time`, so the reported lap time
is the `time` field of the final state. -/
def getLapTime (result : VehicleState × List VehicleState) : ℝ :=
  result.1.time

/-- The default `VehicleParams` of the `LapTimeSimulator` constructor
(`laptimesim.cpp`, lines 4-16).  Modelled from the spec: the defaults of
`weightDistFront`, `weightDistRear`, `centerGravity` and `wheelBase` are set
in a constructor revision that is not under `src/`; representative values
are used (the claims proved about them do not depend on these numbers). -/
def defaultVehicle : VehicleParams :=
  { mass := 798.0, dragCoeff := 0.7, frontalArea := 1.5, downforceCoeff := 3.5,
    maxPower := 750000, maxBrakeTorque := 5000, tireGripCoeff := 1.8,
    wheelRadius := 0.33, weightDistFront := 0.5, weightDistRear := 0.5,
    centerGravity := 0.3, wheelBase := 3.0 }

/-- Modelled from the spec: the thermal constants of the missing header
revision; representative values (no proved claim depends on them). -/
def defaultConsts : ThermalConsts :=
  { tireMass := 10, tireSpecificHeat := 1100, heatTransferCoeff := 50,
    ambientTemp := 25 }

/-- Modelled from the spec: `updateVehicleParams(4, value)` (declared in the
missing header revision, called by `main.cpp`) mutates exactly the swept
field, the downforce coefficient. -/
def updateVehicleParams (P : VehicleParams) (value : ℝ) : VehicleParams :=
  { P with downforceCoeff := value }

/-- The track built by `runSimulator` in `main.cpp` (lines 14-21). -/
def mainTrack : List TrackSegment :=
  [⟨200, 0, 0, "straight"⟩, ⟨80, 50, 0, "right"⟩, ⟨150, 0, -2, "straight"⟩,
   ⟨100, 80, 0, "left"⟩, ⟨300, 0, 0, "straight"⟩, ⟨60, 40, 0, "right"⟩,
   ⟨120, 0, 3, "straight"⟩, ⟨90, 120, 0, "left"⟩]

/-- Embedding of `runSimulator` in `main.cpp` (lines 4-37): build a simulator with the
swept downforce coefficient, add the eight segments, run with
`timeStep = 0.01` and return the lap time.  `fuel` is the modelling bound
inherited from `runSimulation`. -/
def runSimulator (fuel : Nat) (downforceCoeff : ℝ) : ℝ :=
  getLapTime (runSimulation (updateVehicleParams defaultVehicle downforceCoeff)
    defaultConsts mainTrack (1 / 100) fuel)

/-- Running the swept parameter values sequentially: the `(param, lapTime)`
pairs in caller-supplied order. -/
def sequentialPairs (f : ℝ → ℝ) (inputs : List ℝ) : List (ℝ × ℝ) :=
  inputs.map fun c => (c, f c)

/-- Embedding of `async_parallel_run` in `main.cpp` (lines 58-80): one future per input,
created in input order; the collection loop reads `resultsf[i].get()` and
pairs it with `inputs[i]`, keying results by input index.  The completion
order of the futures cannot influence the collected list, so it does not
appear as a parameter. -/
def async_parallel_run (f : ℝ → ℝ) (inputs : List ℝ) : List (ℝ × ℝ) :=
  List.zip inputs (inputs.map f)

/-- Embedding of `openmp_run` in `main.cpp` (lines 39-56): the parallel loop body appends
`{coeff, result}` to the shared `cresults` as each iteration finishes, so
the collected list follows the scheduler-determined completion order
`completionOrder`, an arbitrary permutation of the inputs. -/
def openmp_run (f : ℝ → ℝ) (completionOrder : List ℝ) : List (ℝ × ℝ) :=
  completionOrder.map fun c => (c, f c)

/-! ### Structural lemmas about one integration step -/

/-- The control policy write-back only touches throttle and brake. -/
theorem calcDeriv_snd_eq (P : VehicleParams) (s : VehicleState) (seg : TrackSegment) :
    ∃ t b, (calculateDerivartives P s seg).2 = { s with throttle := t, brake := b } := by
  simp only [calculateDerivartives]
  split
  · exact ⟨1.0, 0.0, rfl⟩
  · split
    · exact ⟨0.0, 0.8, rfl⟩
    · exact ⟨0.3, 0.0, rfl⟩

theorem calcDeriv_snd_position (P : VehicleParams) (s : VehicleState) (seg : TrackSegment) :
    ((calculateDerivartives P s seg).2).position = s.position := by
  obtain ⟨t, b, h⟩ := calcDeriv_snd_eq P s seg; rw [h]

theorem calcDeriv_snd_velocity (P : VehicleParams) (s : VehicleState) (seg : TrackSegment) :
    ((calculateDerivartives P s seg).2).velocity = s.velocity := by
  obtain ⟨t, b, h⟩ := calcDeriv_snd_eq P s seg; rw [h]

theorem calcDeriv_snd_time (P : VehicleParams) (s : VehicleState) (seg : TrackSegment) :
    ((calculateDerivartives P s seg).2).time = s.time := by
  obtain ⟨t, b, h⟩ := calcDeriv_snd_eq P s seg; rw [h]

theorem calcDeriv_snd_tireTemp (P : VehicleParams) (s : VehicleState) (seg : TrackSegment) :
    ((calculateDerivartives P s seg).2).tireTemp = s.tireTemp := by
  obtain ⟨t, b, h⟩ := calcDeriv_snd_eq P s seg; rw [h]

theorem updateNextState_position (P : VehicleParams) (st pre : VehicleState) (dt : ℝ) :
    (updateNextState P st pre dt).position =
      pre.position + (pre.velocity + st.acceleration * dt) * dt := rfl

theorem updateNextState_time (P : VehicleParams) (st pre : VehicleState) (dt : ℝ) :
    (updateNextState P st pre dt).time = pre.time + dt := rfl

theorem updateNextState_tireTemp (P : VehicleParams) (st pre : VehicleState) (dt : ℝ) :
    (updateNextState P st pre dt).tireTemp = st.tireTemp := rfl

theorem updateNextState_acceleration (P : VehicleParams) (st pre : VehicleState) (dt : ℝ) :
    (updateNextState P st pre dt).acceleration = st.acceleration := rfl

theorem updateNextState_velocity (P : VehicleParams) (st pre : VehicleState) (dt : ℝ) :
    (updateNextState P st pre dt).velocity =
      (if (if pre.velocity + st.acceleration * dt < 0 then (0 : ℝ)
            else pre.velocity + st.acceleration * dt) > 100 then (100 : ℝ)
        else if pre.velocity + st.acceleration * dt < 0 then (0 : ℝ)
            else pre.velocity + st.acceleration * dt) := rfl

/-- The clamp at the end of `updateNextState` keeps the velocity in
`[0, 100]`, whatever the inputs. -/
theorem updateNextState_velocity_bounds (P : VehicleParams) (st pre : VehicleState)
    (dt : ℝ) : 0 ≤ (updateNextState P st pre dt).velocity ∧
      (updateNextState P st pre dt).velocity ≤ 100 := by
  rw [updateNextState_velocity]
  split_ifs <;> constructor <;> linarith

theorem rkStages_cur (P : VehicleParams) (C : ThermalConsts) (cur : VehicleState)
    (seg : TrackSegment) (dt : ℝ) :
    (rkStages P C cur seg dt).cur = (calculateDerivartives P cur seg).2 := rfl

theorem simulateStep_eq (P : VehicleParams) (C : ThermalConsts) (cur : VehicleState)
    (seg : TrackSegment) (dt : ℝ) :
    simulateStep P C cur seg dt =
      updateNextState P
        { (rkStages P C cur seg dt).cur with
          acceleration := ((rkStages P C cur seg dt).a0 + (rkStages P C cur seg dt).a3) / 6.0 +
            ((rkStages P C cur seg dt).a1 + (rkStages P C cur seg dt).a2) / 3.0
          tireTemp := (rkStages P C cur seg dt).cur.tireTemp +
            ((rkStages P C cur seg dt).t0 + (rkStages P C cur seg dt).t3) / 6.0 +
            ((rkStages P C cur seg dt).t1 + (rkStages P C cur seg dt).t2) / 3.0 }
        (rkStages P C cur seg dt).cur dt := rfl

theorem simulateStep_time (P : VehicleParams) (C : ThermalConsts) (cur : VehicleState)
    (seg : TrackSegment) (dt : ℝ) :
    (simulateStep P C cur seg dt).time = cur.time + dt := by
  rw [simulateStep_eq, updateNextState_time, rkStages_cur, calcDeriv_snd_time]

theorem simulateStep_acceleration (P : VehicleParams) (C : ThermalConsts)
    (cur : VehicleState) (seg : TrackSegment) (dt : ℝ) :
    (simulateStep P C cur seg dt).acceleration =
      ((rkStages P C cur seg dt).a0 + (rkStages P C cur seg dt).a3) / 6.0 +
        ((rkStages P C cur seg dt).a1 + (rkStages P C cur seg dt).a2) / 3.0 := rfl

theorem simulateStep_tireTemp (P : VehicleParams) (C : ThermalConsts)
    (cur : VehicleState) (seg : TrackSegment) (dt : ℝ) :
    (simulateStep P C cur seg dt).tireTemp =
      cur.tireTemp + ((rkStages P C cur seg dt).t0 + (rkStages P C cur seg dt).t3) / 6.0 +
        ((rkStages P C cur seg dt).t1 + (rkStages P C cur seg dt).t2) / 3.0 := by
  rw [simulateStep_eq, updateNextState_tireTemp]
  rw [show ({ (rkStages P C cur seg dt).cur with
      acceleration := ((rkStages P C cur seg dt).a0 + (rkStages P C cur seg dt).a3) / 6.0 +
        ((rkStages P C cur seg dt).a1 + (rkStages P C cur seg dt).a2) / 3.0
      tireTemp := (rkStages P C cur seg dt).cur.tireTemp +
        ((rkStages P C cur seg dt).t0 + (rkStages P C cur seg dt).t3) / 6.0 +
        ((rkStages P C cur seg dt).t1 + (rkStages P C cur seg dt).t2) / 3.0 } :
      VehicleState).tireTemp =
      (rkStages P C cur seg dt).cur.tireTemp +
        ((rkStages P C cur seg dt).t0 + (rkStages P C cur seg dt).t3) / 6.0 +
        ((rkStages P C cur seg dt).t1 + (rkStages P C cur seg dt).t2) / 3.0 from rfl]
  rw [rkStages_cur, calcDeriv_snd_tireTemp]

theorem simulateStep_position (P : VehicleParams) (C : ThermalConsts)
    (cur : VehicleState) (seg : TrackSegment) (dt : ℝ) :
    (simulateStep P C cur seg dt).position =
      cur.position + (cur.velocity + (simulateStep P C cur seg dt).acceleration * dt) * dt := by
  conv_lhs => rw [simulateStep_eq, updateNextState_position]
  rw [simulateStep_acceleration, rkStages_cur, calcDeriv_snd_position, calcDeriv_snd_velocity]

/-- The step output velocity is always inside the clamp band `[0, 100]`. -/
theorem simulateStep_velocity_bounds (P : VehicleParams) (C : ThermalConsts)
    (cur : VehicleState) (seg : TrackSegment) (dt : ℝ) :
    0 ≤ (simulateStep P C cur seg dt).velocity ∧
      (simulateStep P C cur seg dt).velocity ≤ 100 := by
  rw [simulateStep_eq]; exact updateNextState_velocity_bounds _ _ _ _

/-! ### Concrete instances used by witnesses and counterexamples -/

/-- A vehicle with unit mass, no aerodynamic area, no engine power, no brake
torque and no load transfer: every force evaluates to a closed rational. -/
def P0 : VehicleParams :=
  { mass := 1, dragCoeff := 1, frontalArea := 0, downforceCoeff := 1,
    maxPower := 0, maxBrakeTorque := 0, tireGripCoeff := 1, wheelRadius := 1,
    weightDistFront := 0.5, weightDistRear := 0.5, centerGravity := 0,
    wheelBase := 1 }

/-- Thermal constants with pure linear cooling (`dT/dt = -T`). -/
def Ccool : ThermalConsts :=
  { tireMass := 1, tireSpecificHeat := 4, heatTransferCoeff := 1, ambientTemp := 0 }

/-- Thermal constants with no cooling at all. -/
def Cnocool : ThermalConsts :=
  { tireMass := 1, tireSpecificHeat := 4, heatTransferCoeff := 0, ambientTemp := 0 }

/-- A state at rest, in the optimal tyre-temperature band, with loads equal
to the static load of `P0` (so the load ratio is exactly 1). -/
def st100 : VehicleState :=
  { position := 0, velocity := 0, acceleration := 0, time := 0, throttle := 0,
    brake := 0, tireTemp := 100, frontLoad := 4.905, rearLoad := 4.905 }

/-- State `st100` overheated to 300 °C. -/
def st300 : VehicleState := { st100 with tireTemp := 300 }

/-- A level straight segment. -/
def segStraight : TrackSegment := ⟨100, 0, 0, "straight"⟩

/-! ### C3: load conservation -/

/-- After `calculateLoad` the sum `frontLoad + rearLoad` equals
`mass*g + downforce(velocity)` exactly when the weight distribution sums
to 1 — the load-transfer term cancels. -/
theorem calculateLoad_sum (P : VehicleParams) (st : VehicleState)
    (h : P.weightDistFront + P.weightDistRear = 1) :
    (calculateLoad P st).frontLoad + (calculateLoad P st).rearLoad =
      P.mass * GRAVITY + calculateDownforce P st.velocity := by
  simp only [calculateLoad]
  linear_combination (P.mass * GRAVITY + calculateDownforce P st.velocity) * h

theorem updateNextState_frontLoad (P : VehicleParams) (st pre : VehicleState) (dt : ℝ) :
    (updateNextState P st pre dt).frontLoad =
      (P.mass * GRAVITY + calculateDownforce P (pre.velocity + st.acceleration * dt)) *
          P.weightDistFront +
        st.acceleration * P.mass * P.centerGravity / P.wheelBase := rfl

theorem updateNextState_rearLoad (P : VehicleParams) (st pre : VehicleState) (dt : ℝ) :
    (updateNextState P st pre dt).rearLoad =
      (P.mass * GRAVITY + calculateDownforce P (pre.velocity + st.acceleration * dt)) *
          P.weightDistRear -
        st.acceleration * P.mass * P.centerGravity / P.wheelBase := rfl

/-- The loads written by `updateNextState` sum to the analytic total at the
pre-clamp velocity `prestate.velocity + acceleration·dt`, which is the
velocity `calculateLoad` is evaluated at. -/
theorem updateNextState_load_sum (P : VehicleParams) (st pre : VehicleState) (dt : ℝ)
    (h : P.weightDistFront + P.weightDistRear = 1) :
    (updateNextState P st pre dt).frontLoad + (updateNextState P st pre dt).rearLoad =
      P.mass * GRAVITY + calculateDownforce P (pre.velocity + st.acceleration * dt) := by
  rw [updateNextState_frontLoad, updateNextState_rearLoad]
  linear_combination
    (P.mass * GRAVITY + calculateDownforce P (pre.velocity + st.acceleration * dt)) * h

/-- C3 fails at the telemetry level: the first recorded sample of a run is
the fresh initial state, whose loads never pass through `calculateLoad`, so
its load sum is 0 and not `mass·g + downforce(velocity)`. -/
theorem C3_telemetry_counterexample :
    P0.weightDistFront + P0.weightDistRear = 1 ∧
    initState ∈ (runSimulation P0 Ccool [segStraight] 1 1).2 ∧
    initState.frontLoad + initState.rearLoad ≠
      P0.mass * GRAVITY + calculateDownforce P0 initState.velocity := by
  refine ⟨by norm_num [P0], ?_, ?_⟩
  · show initState ∈ (runSegment P0 Ccool segStraight 1
      (initState.position + segStraight.length) 1 initState []).2
    show initState ∈ (runSegment P0 Ccool segStraight 1
      (initState.position + segStraight.length) (0 + 1) initState []).2
    have hcond : initState.position < initState.position + segStraight.length := by
      norm_num [initState, segStraight]
    simp only [runSegment, if_pos hcond]
    split_ifs <;> simp [runSegment]
  · norm_num [initState, P0, calculateDownforce, GRAVITY, AIR_DENSITY]

/-- C3 amended: after `calculateLoad` the sum `frontLoad + rearLoad` equals
`mass·g + downforce(velocity)` exactly (the transfer term cancels); hence
every telemetry sample after the first — each being a `simulateStep`
output — carries loads summing to `mass·g + downforce` of the pre-clamp
velocity `velocity + acceleration·dt` of the step that produced it. The
first sample is the initial state, whose loads are not produced by
`calculateLoad`, and a clamped sample conserves with respect to its
pre-clamp velocity, not its recorded one. -/
theorem C3_load_conservation_step :
    (∀ (P : VehicleParams) (st : VehicleState),
      P.weightDistFront + P.weightDistRear = 1 →
      (calculateLoad P st).frontLoad + (calculateLoad P st).rearLoad =
        P.mass * GRAVITY + calculateDownforce P st.velocity) ∧
    (∀ (P : VehicleParams) (C : ThermalConsts) (cur : VehicleState)
        (seg : TrackSegment) (dt : ℝ),
      P.weightDistFront + P.weightDistRear = 1 →
      (simulateStep P C cur seg dt).frontLoad + (simulateStep P C cur seg dt).rearLoad =
        P.mass * GRAVITY +
          calculateDownforce P
            (cur.velocity + (simulateStep P C cur seg dt).acceleration * dt)) := by
  refine ⟨calculateLoad_sum, ?_⟩
  intro P C cur seg dt h
  rw [simulateStep_eq P C cur seg dt]
  rw [updateNextState_acceleration]
  rw [show cur.velocity = (rkStages P C cur seg dt).cur.velocity from by
    rw [rkStages_cur, calcDeriv_snd_velocity]]
  exact updateNextState_load_sum P _ _ dt h

/-- Witness for the amended C3 at a concrete parameter set, state and step. -/
theorem C3_load_conservation_step_witness :
    P0.weightDistFront + P0.weightDistRear = 1 ∧
    ((calculateLoad P0 st100).frontLoad + (calculateLoad P0 st100).rearLoad =
      P0.mass * GRAVITY + calculateDownforce P0 st100.velocity) ∧
    ((simulateStep P0 Ccool st100 segStraight 1).frontLoad +
        (simulateStep P0 Ccool st100 segStraight 1).rearLoad =
      P0.mass * GRAVITY +
        calculateDownforce P0
          (st100.velocity + (simulateStep P0 Ccool st100 segStraight 1).acceleration * 1)) :=
  ⟨by norm_num [P0], C3_load_conservation_step.1 P0 st100 (by norm_num [P0]),
    C3_load_conservation_step.2 P0 Ccool st100 segStraight 1 (by norm_num [P0])⟩

/-! ### C5: sign of the grip multiplier -/

/-- C5 fails as stated: at 300 °C the temperature-efficiency factor is
negative, so with a non-negative total load the grip multiplier is
negative. -/
theorem C5_grip_counterexample :
    0 ≤ st300.frontLoad + st300.rearLoad ∧ calculateGripMultiplier P0 st300 < 0 := by
  constructor
  · norm_num [st300, st100]
  · norm_num [calculateGripMultiplier, P0, st300, st100, GRAVITY, Real.sqrt_one]

/-- C5 amended: the grip multiplier is non-negative for every state with
non-negative total load whose tyre temperature lies in `[-560/3, 280]`
(outside that range the efficiency factor itself goes negative). -/
theorem C5_grip_nonneg (P : VehicleParams) (st : VehicleState)
    (_hload : 0 ≤ st.frontLoad + st.rearLoad)
    (hlo : -560 / 3 ≤ st.tireTemp) (hhi : st.tireTemp ≤ 280) :
    0 ≤ calculateGripMultiplier P st := by
  unfold calculateGripMultiplier
  split_ifs with h1 h2
  · exact mul_nonneg (Real.sqrt_nonneg _) (by linarith)
  · exact mul_nonneg (Real.sqrt_nonneg _) (by linarith)
  · exact Real.sqrt_nonneg _

/-- Witness for the amended C5 at a concrete state. -/
theorem C5_grip_nonneg_witness :
    0 ≤ st100.frontLoad + st100.rearLoad ∧ -560 / 3 ≤ st100.tireTemp ∧
      st100.tireTemp ≤ 280 ∧ 0 ≤ calculateGripMultiplier P0 st100 :=
  ⟨by norm_num [st100], by norm_num [st100], by norm_num [st100],
    C5_grip_nonneg P0 st100 (by norm_num [st100]) (by norm_num [st100])
      (by norm_num [st100])⟩

/-! ### C6: continuity of the grip model across the temperature bands -/

/-- The piecewise temperature-efficiency factor coincides with a `min` of
affine functions, which exhibits it as continuous. -/
theorem gripMultiplier_eq_min (P : VehicleParams) (st : VehicleState) :
    calculateGripMultiplier P st =
      Real.sqrt ((st.frontLoad + st.rearLoad) / (P.mass * GRAVITY)) *
        min (0.7 + 0.3 * (st.tireTemp / 80.0))
          (min 1.0 (1.0 - 0.5 * ((st.tireTemp - 120.0) / 80.0))) := by
  unfold calculateGripMultiplier
  split_ifs with h1 h2
  · rw [min_eq_left (by linarith : (1.0 : ℝ) ≤ 1.0 - 0.5 * ((st.tireTemp - 120.0) / 80.0)),
      min_eq_left (by linarith : 0.7 + 0.3 * (st.tireTemp / 80.0) ≤ 1.0)]
  · rw [min_eq_right (by linarith : 1.0 - 0.5 * ((st.tireTemp - 120.0) / 80.0) ≤ 1.0),
      min_eq_right
        (by linarith : 1.0 - 0.5 * ((st.tireTemp - 120.0) / 80.0) ≤
          0.7 + 0.3 * (st.tireTemp / 80.0))]
  · rw [min_eq_left (by linarith : (1.0 : ℝ) ≤ 1.0 - 0.5 * ((st.tireTemp - 120.0) / 80.0)),
      min_eq_right (by linarith : (1.0 : ℝ) ≤ 0.7 + 0.3 * (st.tireTemp / 80.0))]
    norm_num

/-- C6: with the loads held fixed, the grip multiplier is a continuous
function of the tyre temperature, and the below-80 branch at 80 °C and the
above-120 branch at 120 °C both equal the in-band value. -/
theorem C6_grip_continuity (P : VehicleParams) (st : VehicleState) :
    Continuous (fun T => calculateGripMultiplier P { st with tireTemp := T }) ∧
    calculateGripMultiplier P { st with tireTemp := 80 } =
      Real.sqrt ((st.frontLoad + st.rearLoad) / (P.mass * GRAVITY)) *
        (0.7 + 0.3 * (80 / 80.0)) ∧
    calculateGripMultiplier P { st with tireTemp := 120 } =
      Real.sqrt ((st.frontLoad + st.rearLoad) / (P.mass * GRAVITY)) *
        (1.0 - 0.5 * ((120 - 120.0) / 80.0)) := by
  refine ⟨?_, ?_, ?_⟩
  · have h : (fun T => calculateGripMultiplier P { st with tireTemp := T }) =
        fun T => Real.sqrt ((st.frontLoad + st.rearLoad) / (P.mass * GRAVITY)) *
          min (0.7 + 0.3 * (T / 80.0)) (min 1.0 (1.0 - 0.5 * ((T - 120.0) / 80.0))) := by
      funext T
      rw [gripMultiplier_eq_min]
    rw [h]
    exact continuous_const.mul
      ((continuous_const.add (continuous_const.mul (continuous_id.div_const _))).min
        (continuous_const.min
          (continuous_const.sub
            (continuous_const.mul ((continuous_id.sub continuous_const).div_const _)))))
  · norm_num [calculateGripMultiplier]
  · norm_num [calculateGripMultiplier]

/-! ### Loop lemmas for the lap orchestrator -/

/-- Lemma: `runSegment` only ever appends to the telemetry it is given. -/
theorem runSegment_tel_append (P : VehicleParams) (C : ThermalConsts)
    (seg : TrackSegment) (dt segEnd : ℝ) :
    ∀ (fuel : Nat) (s : VehicleState) (tel : List VehicleState),
      ∃ l, (runSegment P C seg dt segEnd fuel s tel).2 = tel ++ l := by
  intro fuel
  induction fuel with
  | zero => exact fun s tel => ⟨[], by simp [runSegment]⟩
  | succ f ih =>
    intro s tel
    simp only [runSegment]
    split_ifs with h1 h2
    · exact ⟨[s], rfl⟩
    · obtain ⟨l, hl⟩ := ih (simulateStep P C s seg dt) (tel ++ [s])
      exact ⟨[s] ++ l, by rw [hl]; simp⟩
    · exact ⟨[], by simp⟩

/-- A joint invariant of the running state and the telemetry that is
preserved by push-then-step is preserved by the whole segment loop. -/
theorem runSegment_joint_inv (P : VehicleParams) (C : ThermalConsts)
    (seg : TrackSegment) (dt segEnd : ℝ)
    (Inv : VehicleState → List VehicleState → Prop)
    (hpush : ∀ s tel, Inv s tel → Inv (simulateStep P C s seg dt) (tel ++ [s])) :
    ∀ (fuel : Nat) (s : VehicleState) (tel : List VehicleState), Inv s tel →
      Inv (runSegment P C seg dt segEnd fuel s tel).1
        (runSegment P C seg dt segEnd fuel s tel).2 := by
  intro fuel
  induction fuel with
  | zero => intro s tel h; simpa [runSegment] using h
  | succ f ih =>
    intro s tel h
    simp only [runSegment]
    split_ifs with h1 h2
    · exact hpush s tel h
    · exact ih _ _ (hpush s tel h)
    · exact h

/-- Lift a push-then-step invariant through the whole run. -/
theorem runSimulation_inv (P : VehicleParams) (C : ThermalConsts) (dt : ℝ) (fuel : Nat)
    (Inv : VehicleState → List VehicleState → Prop)
    (hpush : ∀ (seg : TrackSegment) (s : VehicleState) tel, Inv s tel →
      Inv (simulateStep P C s seg dt) (tel ++ [s]))
    (track : List TrackSegment) (hinit : Inv initState []) :
    Inv (runSimulation P C track dt fuel).1 (runSimulation P C track dt fuel).2 := by
  have key : ∀ (tr : List TrackSegment) (acc : VehicleState × List VehicleState),
      Inv acc.1 acc.2 →
      Inv ((tr.foldl (fun acc segment =>
          runSegment P C segment dt (acc.1.position + segment.length) fuel acc.1 acc.2)
          acc).1)
        ((tr.foldl (fun acc segment =>
          runSegment P C segment dt (acc.1.position + segment.length) fuel acc.1 acc.2)
          acc).2) := by
    intro tr
    induction tr with
    | nil => intro acc h; simpa using h
    | cons seg rest ih =>
      intro acc h
      simp only [List.foldl_cons]
      exact ih _ (runSegment_joint_inv P C seg dt _ Inv (hpush seg) fuel acc.1 acc.2 h)
  exact key track (initState, []) hinit

/-- A segment whose end is already behind the current position is a no-op. -/
theorem runSegment_skip (P : VehicleParams) (C : ThermalConsts) (seg : TrackSegment)
    (dt segEnd : ℝ) (fuel : Nat) (s : VehicleState) (tel : List VehicleState)
    (h : ¬ s.position < segEnd) :
    runSegment P C seg dt segEnd fuel s tel = (s, tel) := by
  cases fuel <;> simp [runSegment, h]

/-- With at least one unit of fuel, a segment that is still ahead pushes
the entry state as the first new telemetry entry. -/
theorem runSegment_push (P : VehicleParams) (C : ThermalConsts) (seg : TrackSegment)
    (dt segEnd : ℝ) (f : Nat) (s : VehicleState) (tel : List VehicleState)
    (h : s.position < segEnd) :
    ∃ l, (runSegment P C seg dt segEnd (f + 1) s tel).2 = tel ++ [s] ++ l := by
  simp only [runSegment, if_pos h]
  split_ifs with h2
  · exact ⟨[], by simp⟩
  · obtain ⟨l, hl⟩ := runSegment_tel_append P C seg dt segEnd f
      (simulateStep P C s seg dt) (tel ++ [s])
    exact ⟨l, by rw [hl]⟩

/-- The whole run only ever appends to the accumulated telemetry. -/
theorem runSim_foldl_append (P : VehicleParams) (C : ThermalConsts) (dt : ℝ)
    (fuel : Nat) :
    ∀ (tr : List TrackSegment) (acc : VehicleState × List VehicleState),
      ∃ l, (tr.foldl (fun acc segment =>
          runSegment P C segment dt (acc.1.position + segment.length) fuel acc.1 acc.2)
          acc).2 = acc.2 ++ l := by
  intro tr
  induction tr with
  | nil => exact fun acc => ⟨[], by simp⟩
  | cons seg rest ih =>
    intro acc
    simp only [List.foldl_cons]
    obtain ⟨l1, hl1⟩ := runSegment_tel_append P C seg dt
      (acc.1.position + seg.length) fuel acc.1 acc.2
    obtain ⟨l2, hl2⟩ := ih (runSegment P C seg dt (acc.1.position + seg.length) fuel
      acc.1 acc.2)
    exact ⟨l1 ++ l2, by rw [hl2, hl1]; simp⟩

/-- If some segment of the track has positive length and the loop has fuel,
the recorded telemetry starts with the fresh initial state. -/
theorem runSimulation_head (P : VehicleParams) (C : ThermalConsts)
    (track : List TrackSegment) (dt : ℝ) (fuel : Nat) (hfuel : 1 ≤ fuel)
    (hpos : ∃ seg ∈ track, 0 < seg.length) :
    ∃ l, (runSimulation P C track dt fuel).2 = initState :: l := by
  obtain ⟨f, rfl⟩ : ∃ f, fuel = f + 1 := ⟨fuel - 1, by omega⟩
  induction track with
  | nil => simp at hpos
  | cons seg rest ih =>
    by_cases h : 0 < seg.length
    · have hcond : initState.position < initState.position + seg.length := by
        simpa [initState] using h
      obtain ⟨l1, hl1⟩ := runSegment_push P C seg dt
        (initState.position + seg.length) f initState [] hcond
      simp only [runSimulation, List.foldl_cons]
      obtain ⟨l2, hl2⟩ := runSim_foldl_append P C dt (f + 1) rest
        (runSegment P C seg dt (initState.position + seg.length) (f + 1) initState [])
      refine ⟨(l1 ++ l2 : List VehicleState), ?_⟩
      rw [hl2, hl1]
      simp
    · have hskip : runSegment P C seg dt (initState.position + seg.length) (f + 1)
          initState [] = (initState, []) := by
        apply runSegment_skip
        push_neg at h ⊢
        linarith
      obtain ⟨sg, hsg, hlen⟩ := hpos
      rcases List.mem_cons.mp hsg with rfl | hmem
      · exact absurd hlen h
      · have := ih ⟨sg, hmem, hlen⟩
        simpa only [runSimulation, List.foldl_cons, hskip] using this

/-! ### C4: the velocity band invariant -/

/-- C4: the initial run state has velocity in `[0, 100]`; one `simulateStep`
maps any state with velocity in `[0, 100]` (any state at all, in fact, by
the post-integration clamp) back into `[0, 100]`; hence every recorded
telemetry sample has velocity in `[0, 100]`. -/
theorem C4_velocity_invariant :
    (0 ≤ initState.velocity ∧ initState.velocity ≤ 100) ∧
    (∀ (P : VehicleParams) (C : ThermalConsts) (cur : VehicleState)
        (seg : TrackSegment) (dt : ℝ), 0 < dt →
        0 ≤ cur.velocity → cur.velocity ≤ 100 →
        0 ≤ (simulateStep P C cur seg dt).velocity ∧
          (simulateStep P C cur seg dt).velocity ≤ 100) ∧
    (∀ (P : VehicleParams) (C : ThermalConsts) (track : List TrackSegment)
        (dt : ℝ) (fuel : Nat),
        ∀ x ∈ (runSimulation P C track dt fuel).2,
          0 ≤ x.velocity ∧ x.velocity ≤ 100) := by
  refine ⟨by norm_num [initState], ?_, ?_⟩
  · intro P C cur seg dt _ _ _
    exact simulateStep_velocity_bounds P C cur seg dt
  · intro P C track dt fuel
    have h := runSimulation_inv P C dt fuel
      (fun s tel => (0 ≤ s.velocity ∧ s.velocity ≤ 100) ∧
        ∀ x ∈ tel, 0 ≤ x.velocity ∧ x.velocity ≤ 100)
      (fun seg s tel hInv => by
        refine ⟨simulateStep_velocity_bounds P C s seg dt, ?_⟩
        intro x hx
        rcases List.mem_append.mp hx with hx | hx
        · exact hInv.2 x hx
        · rw [List.mem_singleton.mp hx]
          exact hInv.1)
      track (by norm_num [initState])
    exact h.2

/-- Witness for C4 at a concrete step and run. -/
theorem C4_velocity_invariant_witness :
    (0 < (1 : ℝ)) ∧ 0 ≤ st100.velocity ∧ st100.velocity ≤ 100 ∧
    (0 ≤ (simulateStep P0 Ccool st100 segStraight 1).velocity ∧
      (simulateStep P0 Ccool st100 segStraight 1).velocity ≤ 100) :=
  ⟨by norm_num, by norm_num [st100], by norm_num [st100],
    C4_velocity_invariant.2.1 P0 Ccool st100 segStraight 1 (by norm_num)
      (by norm_num [st100]) (by norm_num [st100])⟩

/-! ### C10: telemetry is recorded strictly before each step -/

/-- C10: each telemetry entry is appended before the step that follows it.
For every track with a positive-length segment (given fuel and `dt > 0`)
the telemetry is non-empty, its first entry is the fresh initial state
(time 0, position 0, velocity 0), and every recorded entry has a time
strictly below the reported lap time, so the final post-step state is never
itself recorded. -/
theorem C10_telemetry_structure (P : VehicleParams) (C : ThermalConsts)
    (track : List TrackSegment) (dt : ℝ) (fuel : Nat) (hfuel : 1 ≤ fuel)
    (hdt : 0 < dt) (hpos : ∃ seg ∈ track, 0 < seg.length) :
    initState.time = 0 ∧ initState.position = 0 ∧ initState.velocity = 0 ∧
    (runSimulation P C track dt fuel).2 ≠ [] ∧
    (runSimulation P C track dt fuel).2.head? = some initState ∧
    ∀ x ∈ (runSimulation P C track dt fuel).2,
      x.time < getLapTime (runSimulation P C track dt fuel) := by
  obtain ⟨l, hl⟩ := runSimulation_head P C track dt fuel hfuel hpos
  refine ⟨rfl, rfl, rfl, by rw [hl]; simp, by rw [hl]; rfl, ?_⟩
  have h := runSimulation_inv P C dt fuel
    (fun s tel => ∀ x ∈ tel, x.time < s.time)
    (fun seg s tel hInv => by
      intro x hx
      rw [simulateStep_time]
      rcases List.mem_append.mp hx with hx | hx
      · exact lt_trans (hInv x hx) (by linarith)
      · rw [List.mem_singleton.mp hx]; linarith)
    track (by simp)
  exact h

/-- Witness for C10 on a one-segment track with unit fuel. -/
theorem C10_telemetry_structure_witness :
    initState.time = 0 ∧ initState.position = 0 ∧ initState.velocity = 0 ∧
    (runSimulation P0 Ccool [segStraight] 1 1).2 ≠ [] ∧
    (runSimulation P0 Ccool [segStraight] 1 1).2.head? = some initState ∧
    ∀ x ∈ (runSimulation P0 Ccool [segStraight] 1 1).2,
      x.time < getLapTime (runSimulation P0 Ccool [segStraight] 1 1) :=
  C10_telemetry_structure P0 Ccool [segStraight] 1 1 (le_refl 1) (by norm_num)
    ⟨segStraight, by simp, by norm_num [segStraight]⟩

/-! ### C7: no validation of segment length or time step -/

/-- C7 fails as stated: `addTrackSegment` accepts a negative length and
appends it; the prior (empty) track does not stay unchanged and no failure
status exists. -/
theorem C7_validation_counterexample :
    ((-5 : ℝ) ≤ 0) ∧ addTrackSegment [] (-5) 0 0 "s" ≠ [] := by
  constructor
  · norm_num
  · simp [addTrackSegment]

/-- C7 amended: both operations silently accept invalid configuration.
`addTrackSegment` appends unconditionally, whatever the length sign, and
`runSimulation` performs no time-step validation: run with a negative time
step it still replaces the telemetry and records states. -/
theorem C7_no_validation :
    (∀ (track : List TrackSegment) (length radius inclination : ℝ) (type : String),
      addTrackSegment track length radius inclination type =
        track ++ [⟨length, radius, inclination, type⟩]) ∧
    (runSimulation P0 Ccool [segStraight] (-1 / 100) 1).2 = [initState] := by
  constructor
  · intro track length radius inclination type
    rfl
  · have hcond : initState.position < initState.position + segStraight.length := by
      norm_num [initState, segStraight]
    show (runSegment P0 Ccool segStraight (-1 / 100)
      (initState.position + segStraight.length) 1 initState []).2 = [initState]
    show (runSegment P0 Ccool segStraight (-1 / 100)
      (initState.position + segStraight.length) (0 + 1) initState []).2 = [initState]
    simp only [runSegment, if_pos hcond]
    split_ifs <;> rfl

/-! ### C8: order of the sweep results -/

/-- Zipping a list with its own image collects index-keyed pairs. -/
theorem zip_self_map (f : ℝ → ℝ) :
    ∀ l : List ℝ, List.zip l (l.map f) = l.map fun c => (c, f c) := by
  intro l
  induction l with
  | nil => rfl
  | cons a l ih => simp [ih]

/-- C8 fails as stated for the OpenMP harness: a completion order that is a
permutation of the inputs but not the identity yields pairs out of the
caller-supplied order. -/
theorem C8_order_counterexample :
    List.Perm [3, 2] [2, 3] ∧
    openmp_run (runSimulator 1) [3, 2] ≠ sequentialPairs (runSimulator 1) [2, 3] := by
  refine ⟨List.Perm.swap 2 3 [], ?_⟩
  intro h
  simp only [openmp_run, sequentialPairs, List.map_cons, List.map_nil,
    List.cons.injEq, Prod.mk.injEq] at h
  norm_num at h

/-- C8 amended: the future-per-task harness keys results by input index, so
its output equals the sequential pairs for every completion order; the
OpenMP harness emits pairs in completion order, so its output is only a
permutation of the sequential pairs (with the correct values), not
necessarily in input order. -/
theorem C8_sweep_order (f : ℝ → ℝ) (inputs : List ℝ) :
    async_parallel_run f inputs = sequentialPairs f inputs ∧
    ∀ completionOrder : List ℝ, completionOrder.Perm inputs →
      (openmp_run f completionOrder).Perm (sequentialPairs f inputs) := by
  constructor
  · exact zip_self_map f inputs
  · intro completionOrder hperm
    exact hperm.map _

/-- Witness for the amended C8 at a concrete out-of-order completion. -/
theorem C8_sweep_order_witness :
    (openmp_run (runSimulator 1) [3, 2]).Perm (sequentialPairs (runSimulator 1) [2, 3]) :=
  (C8_sweep_order (runSimulator 1) [2, 3]).2 [3, 2] (List.Perm.swap 2 3 [])

/-! ### Concrete RK4 stage evaluations -/

/-- Params `P0` with a small engine (engine force 1 N below 0.1 m/s). -/
def PB : VehicleParams := { P0 with maxPower := 0.1 }

/-- Params `P0` with strong brakes (brake force 8000 N at 80 % brake). -/
def PD : VehicleParams := { P0 with maxBrakeTorque := 10000 }

/-- State `st100` travelling far above the braking threshold of the control policy. -/
def stFast : VehicleState := { st100 with velocity := 2000 }

set_option maxHeartbeats 1000000 in
/-- Stage derivatives for the pure-cooling scenario: no engine, no brakes,
`dT/dt = -T`, so with `dt = 2` the four temperature stages are
`-100, 0, -100, 100` and every acceleration stage is zero. -/
theorem rkStagesA_eval : rkStages P0 Ccool st100 segStraight 2 =
    ⟨{ st100 with throttle := 1, brake := 0 }, 0, 0, 0, 0, -100, 0, -100, 100⟩ := by
  norm_num [rkStages, calculateDerivartives, calculateTempDerivartives,
    calculateGripMultiplier, calculateMaxCornerSpeed, calculateTractionForce,
    calculateDrag, calculateDownforce, calculateBrakeForce, updateNextState,
    calculateLoad, P0, Ccool, st100, segStraight, GRAVITY, AIR_DENSITY,
    Real.sqrt_one, Real.sin_zero, min_def, RKStages.mk.injEq, VehicleState.mk.injEq]

set_option maxHeartbeats 1000000 in
/-- Stage derivatives for the small-engine scenario with `dt = 1/5`: the
acceleration stages are `1, 1, 1, 1/2`. -/
theorem rkStagesB_eval : rkStages PB Cnocool st100 segStraight (1 / 5) =
    ⟨{ st100 with throttle := 1, brake := 0 }, 1, 1, 1, 1 / 2, 0, 1 / 10, 1 / 10, 1 / 10⟩ := by
  norm_num [rkStages, calculateDerivartives, calculateTempDerivartives,
    calculateGripMultiplier, calculateMaxCornerSpeed, calculateTractionForce,
    calculateDrag, calculateDownforce, calculateBrakeForce, updateNextState,
    calculateLoad, PB, P0, Cnocool, st100, segStraight, GRAVITY, AIR_DENSITY,
    Real.sqrt_one, Real.sin_zero, min_def, RKStages.mk.injEq, VehicleState.mk.injEq]

set_option maxHeartbeats 1000000 in
/-- Stage derivatives for the hard-braking scenario with `dt = 3`: the first
acceleration stage is `-8000`, the later stages are zero because the
intermediate velocities are clamped into `[0, 100]` where the policy floors
the brake again. -/
theorem rkStagesD_eval : rkStages PD Cnocool stFast segStraight 3 =
    ⟨{ stFast with throttle := 0, brake := 0.8 }, -8000, 0, 0, 0, 0, 0, 0, 0⟩ := by
  norm_num [rkStages, calculateDerivartives, calculateTempDerivartives,
    calculateGripMultiplier, calculateMaxCornerSpeed, calculateTractionForce,
    calculateDrag, calculateDownforce, calculateBrakeForce, updateNextState,
    calculateLoad, PD, P0, Cnocool, stFast, st100, segStraight, GRAVITY, AIR_DENSITY,
    Real.sqrt_one, Real.sin_zero, min_def, RKStages.mk.injEq, VehicleState.mk.injEq]

/-! ### C1: the temperature combine is not multiplied by dt -/

/-- C1 identifies a code defect: `simulateStep` adds the combined
temperature rate `(k1 + 2k2 + 2k3 + k4)/6` to `tireTemp` directly, without
the factor `dt` that the velocity integration uses; at the pure-cooling
input with `dt = 2` the code produces `200/3` °C where the claimed
`tireTemp + dt · rate` is `100/3` °C. -/
theorem C1_tireTemp_missing_dt :
    (∀ (P : VehicleParams) (C : ThermalConsts) (cur : VehicleState)
        (seg : TrackSegment) (dt : ℝ),
      (simulateStep P C cur seg dt).tireTemp =
        cur.tireTemp + ((rkStages P C cur seg dt).t0 + 2 * (rkStages P C cur seg dt).t1 +
          2 * (rkStages P C cur seg dt).t2 + (rkStages P C cur seg dt).t3) / 6) ∧
    (simulateStep P0 Ccool st100 segStraight 2).tireTemp = 200 / 3 ∧
    st100.tireTemp + 2 * (((rkStages P0 Ccool st100 segStraight 2).t0 +
      2 * (rkStages P0 Ccool st100 segStraight 2).t1 +
      2 * (rkStages P0 Ccool st100 segStraight 2).t2 +
      (rkStages P0 Ccool st100 segStraight 2).t3) / 6) = 100 / 3 ∧
    (200 : ℝ) / 3 ≠ 100 / 3 := by
  refine ⟨?_, ?_, ?_, by norm_num⟩
  · intro P C cur seg dt
    rw [simulateStep_tireTemp]
    ring
  · rw [simulateStep_tireTemp, rkStagesA_eval]
    norm_num [st100]
  · rw [rkStagesA_eval]
    norm_num [st100]

/-! ### C2/C9: position integrates the post-step, pre-clamp velocity -/

/-- C2 fails as stated: at the small-engine input the position after one
step is `11/300` m, not the `0` m that `position + (pre-step velocity)·dt`
would give. -/
theorem C2_position_counterexample :
    (0 : ℝ) < 1 / 5 ∧
    (simulateStep PB Cnocool st100 segStraight (1 / 5)).position ≠
      st100.position + st100.velocity * (1 / 5) := by
  refine ⟨by norm_num, ?_⟩
  rw [simulateStep_position, simulateStep_acceleration, rkStagesB_eval]
  norm_num [st100]

/-- C2 amended: one call of `simulateStep` produces a next state whose
position equals the current position plus the *newly integrated* (pre-clamp)
velocity times `dt`, i.e. `position + (velocity + acceleration·dt)·dt`. -/
theorem C2_position_semi_implicit (P : VehicleParams) (C : ThermalConsts)
    (cur : VehicleState) (seg : TrackSegment) (dt : ℝ) :
    (simulateStep P C cur seg dt).position =
      cur.position + (cur.velocity + (simulateStep P C cur seg dt).acceleration * dt) * dt :=
  simulateStep_position P C cur seg dt

/-- The final clamp of `simulateStep`, written over the output
acceleration. -/
theorem simulateStep_velocity_clamp (P : VehicleParams) (C : ThermalConsts)
    (cur : VehicleState) (seg : TrackSegment) (dt : ℝ) :
    (simulateStep P C cur seg dt).velocity =
      if (if cur.velocity + (simulateStep P C cur seg dt).acceleration * dt < 0 then (0 : ℝ)
          else cur.velocity + (simulateStep P C cur seg dt).acceleration * dt) > 100
        then (100 : ℝ)
        else if cur.velocity + (simulateStep P C cur seg dt).acceleration * dt < 0 then (0 : ℝ)
          else cur.velocity + (simulateStep P C cur seg dt).acceleration * dt := by
  rw [simulateStep_acceleration]
  rw [show cur.velocity = (rkStages P C cur seg dt).cur.velocity by
    rw [rkStages_cur, calcDeriv_snd_velocity]]
  rfl

/-- C9: the successor position is computed from the unclamped velocity,
`position + (velocity + acceleration·dt)·dt`; consequently whenever the
integrated velocity `velocity + acceleration·dt` is negative (with
`dt > 0`), the recorded position strictly decreases while the stored
velocity is clamped to 0. -/
theorem C9_position_unclamped :
    (∀ (P : VehicleParams) (C : ThermalConsts) (cur : VehicleState)
        (seg : TrackSegment) (dt : ℝ),
      (simulateStep P C cur seg dt).position =
        cur.position + (cur.velocity + (simulateStep P C cur seg dt).acceleration * dt) * dt) ∧
    (∀ (P : VehicleParams) (C : ThermalConsts) (cur : VehicleState)
        (seg : TrackSegment) (dt : ℝ), 0 < dt →
      cur.velocity + (simulateStep P C cur seg dt).acceleration * dt < 0 →
      (simulateStep P C cur seg dt).position < cur.position ∧
        (simulateStep P C cur seg dt).velocity = 0) := by
  refine ⟨simulateStep_position, ?_⟩
  intro P C cur seg dt hdt hneg
  constructor
  · rw [simulateStep_position P C cur seg dt]
    have h := mul_neg_of_neg_of_pos hneg hdt
    linarith
  · rw [simulateStep_velocity_clamp, if_pos hneg]
    norm_num

/-- Witness for C9 at the hard-braking input, where the combined
acceleration is `-4000/3` and `velocity + acceleration·dt = -2000 < 0`. -/
theorem C9_position_unclamped_witness :
    (0 : ℝ) < 3 ∧
    stFast.velocity + (simulateStep PD Cnocool stFast segStraight 3).acceleration * 3 < 0 ∧
    (simulateStep PD Cnocool stFast segStraight 3).position < stFast.position ∧
    (simulateStep PD Cnocool stFast segStraight 3).velocity = 0 := by
  have hacc : (simulateStep PD Cnocool stFast segStraight 3).acceleration = -4000 / 3 := by
    rw [simulateStep_acceleration, rkStagesD_eval]
    norm_num
  have hneg : stFast.velocity +
      (simulateStep PD Cnocool stFast segStraight 3).acceleration * 3 < 0 := by
    rw [hacc]
    norm_num [stFast, st100]
  refine ⟨by norm_num, hneg, ?_⟩
  exact C9_position_unclamped.2 PD Cnocool stFast segStraight 3 (by norm_num) hneg

end

end F1sim
